import Mathlib

/-!
Verification of the leetcode-discuss-feed pipeline core (scripts/utils.py,
scripts/config_loader.py, scripts/renderer.py, scripts/fetcher.py, and the
combined scripts/feed.py): the token generator, path resolver, atomic JSON
writer, manifest publisher, the fetcher deduplication and fallback pass, and
the HTML rendering.

Modelling conventions:
- a Python str is a Lean list of characters (Str);
- a filesystem path is its list of components (Fpath), pathlib joining is
  list append, and joining a relative string path splits it on the slash;
- the filesystem is a partial map from paths to file values (Fs); a file
  value is either a structured JSON document (as json.dump would serialize
  it and json.load would parse it back) or raw text;
- machine randomness (secrets.choice) is an explicit oracle argument;
- the clock (datetime.now, date.today) is an explicit argument: feed.py
  calls now_iso_utc twice in write_json_and_manifest, so the model takes
  the two observed clock readings as two arguments, and date.today(),
  which yields the LOCAL calendar date, is an explicit localToday string.
-/

/-- A Python string, modelled as its list of characters. -/
abbrev Str := List Char

/-- The characters of a Lean string literal, as a model-level Python string. -/
def str (s : String) : Str := s.data

/-- A filesystem path, as its list of components (pathlib parts). -/
abbrev Fpath := List Str

/-- A JSON value as Python json.load / json.dump sees it (dict entries keep
insertion order; duplicate keys are assumed already collapsed). -/
inductive Json where
  | null : Json
  | b : Bool → Json
  | i : Int → Json
  | s : Str → Json
  | arr : List Json → Json
  | obj : List (Str × Json) → Json

/-- A file on disk: either a structured JSON document (written by json.dump,
parsed by json.load) or raw text (templates, markdown). -/
inductive FVal where
  | j : Json → FVal
  | t : Str → FVal

/-- The filesystem: a partial map from paths to file values. -/
abbrev Fs := Fpath → Option FVal

/-- Look a key up in a JSON object entry list (first match; entry lists are
assumed duplicate-free, as json.load produces). -/
def lookupKV : List (Str × Json) → Str → Option Json
  | [], _ => none
  | (k, v) :: rest, key => if k = key then some v else lookupKV rest key

/-- Python dict.get on a JSON object (none on a non-object marks the
AttributeError the callers in fetcher.py catch). -/
def objGet : Json → Str → Option Json
  | .obj kvs, key => lookupKV kvs key
  | _, _ => none

/-- The keys of a JSON object, in order; empty for non-objects. -/
def objKeys : Json → List Str
  | .obj kvs => kvs.map Prod.fst
  | _ => []

/-- Python truthiness of a JSON value (for the if json_path check in
fetcher.py). -/
def jsonTruthy : Json → Bool
  | .null => false
  | .b v => v
  | .i n => n != 0
  | .s cs => !cs.isEmpty
  | .arr l => !l.isEmpty
  | .obj l => !l.isEmpty

/-! ### Slash splitting and joining

Joining a base path with a relative string path in pathlib splits the string
on the slash; as_posix joins the components with slashes. -/

/-- Split a string on the slash character (Path("a/b/c") parts). -/
def splitSlash : Str → List Str
  | [] => [[]]
  | c :: cs =>
    if c = '/' then [] :: splitSlash cs
    else
      match splitSlash cs with
      | [] => [[c]]
      | g :: gs => (c :: g) :: gs

/-- Join components with slashes (PurePath.as_posix of a relative path). -/
def joinSlash : List Str → Str
  | [] => []
  | [s] => s
  | s :: rest => s ++ '/' :: joinSlash rest

theorem splitSlash_ne_nil (cs : Str) : splitSlash cs ≠ [] := by
  induction cs with
  | nil => simp [splitSlash]
  | cons c cs ih =>
    simp only [splitSlash]
    split
    · simp
    · cases h : splitSlash cs with
      | nil => simp
      | cons g gs => simp

theorem splitSlash_no_slash (s : Str) (h : '/' ∉ s) : splitSlash s = [s] := by
  induction s with
  | nil => rfl
  | cons c cs ih =>
    simp only [List.mem_cons, not_or] at h
    simp only [splitSlash]
    rw [if_neg (fun hc => h.1 hc.symm)]
    rw [ih h.2]

theorem splitSlash_append (s t : Str) (h : '/' ∉ s) :
    splitSlash (s ++ '/' :: t) = s :: splitSlash t := by
  induction s with
  | nil => simp [splitSlash]
  | cons c cs ih =>
    simp only [List.mem_cons, not_or] at h
    simp only [List.cons_append, splitSlash]
    rw [if_neg (fun hc => h.1 hc.symm)]
    simp only [List.append_eq]
    rw [ih h.2]

theorem splitSlash_joinSlash (comps : List Str) (hne : comps ≠ [])
    (h : ∀ s ∈ comps, '/' ∉ s) : splitSlash (joinSlash comps) = comps := by
  induction comps with
  | nil => exact absurd rfl hne
  | cons s rest ih =>
    cases rest with
    | nil => exact splitSlash_no_slash s (h s (by simp))
    | cons r rs =>
      have hs : '/' ∉ s := h s (by simp)
      rw [show joinSlash (s :: r :: rs) = s ++ '/' :: joinSlash (r :: rs) from rfl]
      rw [splitSlash_append _ _ hs]
      rw [ih (by simp) (fun x hx => h x (List.mem_cons_of_mem _ hx))]

/-! ### The atomic JSON writer (write_json_atomic in scripts/utils.py and
scripts/feed.py)

The writer serializes the payload into a co-located temporary file named
target name plus .tmp (path.with_suffix(path.suffix + ".tmp") removes the
final suffix and appends the final suffix plus ".tmp", which is appending
".tmp" to the file name), then renames the temporary file onto the target
(tmp.replace(path), an atomic rename). The states a concurrent reader can
observe are: any number of partial temporary files, the complete temporary
file, and the renamed result; the model exposes that whole state list. The
mkdir of the parent directory has no effect on file contents and is not
modelled. -/

/-- The co-located temporary file: the last path component gets ".tmp"
appended (model of path.with_suffix(path.suffix + ".tmp")). -/
def tmpPath (p : Fpath) : Fpath := p.dropLast ++ [p.getLastD [] ++ str ".tmp"]

/-- One filesystem with the temporary file of the target set to the given
content (or removed, for none). -/
def fsSetTmp (fs : Fs) (p : Fpath) (w : Option FVal) : Fs :=
  fun q => if q = tmpPath p then w else fs q

/-- The final filesystem after write_json_atomic: the complete document is
at the target, and the temporary file is gone (tmp.replace(path)). -/
def write_json_atomic (fs : Fs) (p : Fpath) (v : Json) : Fs :=
  fun q =>
    if q = p then some (FVal.j v)
    else if q = tmpPath p then none
    else fs q

/-- Every filesystem state a reader can observe during write_json_atomic:
the partial temporary contents (json.dump streams into the open file), the
complete temporary file, then the renamed result. -/
def write_json_atomic_states (fs : Fs) (p : Fpath) (v : Json)
    (partials : List (Option FVal)) : List Fs :=
  (partials ++ [some (FVal.j v)]).map (fsSetTmp fs p) ++ [write_json_atomic fs p v]

theorem tmpPath_last_ne (p : Fpath) (hp : p ≠ []) : tmpPath p ≠ p := by
  intro h
  have hlast : p.dropLast ++ [p.getLast hp] = p := List.dropLast_append_getLast hp
  rw [tmpPath] at h
  have : p.getLastD [] ++ str ".tmp" = p.getLast hp := by
    have hsing := List.append_inj_right (h.trans hlast.symm) rfl
    simpa using hsing
  rw [List.getLastD_eq_getLast?, List.getLast?_eq_getLast p hp] at this
  simp only [Option.getD_some] at this
  have hlen := congrArg List.length this
  simp [str] at hlen

/-! ### The clock (now_iso_utc in scripts/utils.py and scripts/feed.py)

now_iso_utc returns datetime.now(timezone.utc).isoformat(timespec="seconds"),
the current UTC wall clock formatted as an ISO-8601 timestamp at second
precision with the +00:00 offset. The model takes the observed clock reading
as an explicit argument. -/

/-- A UTC wall-clock reading at second precision. -/
structure Utc where
  year : Nat
  month : Nat
  day : Nat
  hour : Nat
  minute : Nat
  second : Nat
deriving DecidableEq

/-- Decimal digits of a number, left-padded with zeros to the given width. -/
def padDec (width n : Nat) : Str :=
  let d := Nat.toDigits 10 n
  List.replicate (width - d.length) '0' ++ d

/-- Model of now_iso_utc: the given UTC reading formatted as ISO-8601 at
second precision with the +00:00 offset. -/
def now_iso_utc (t : Utc) : Str :=
  padDec 4 t.year ++ '-' :: padDec 2 t.month ++ '-' :: padDec 2 t.day ++
    'T' :: padDec 2 t.hour ++ ':' :: padDec 2 t.minute ++ ':' :: padDec 2 t.second ++
    str "+00:00"

/-! ### SHA-256 (hashlib.sha256 as used by Renderer._daily_token)

A full executable embedding of FIPS 180-4 SHA-256 over byte lists, with
32-bit words as naturals reduced modulo 2 ^ 32, plus the lowercase hex
digest and the UTF-8 encoding of strings. -/

/-- Reduce to a 32-bit word. -/
def w32 (n : Nat) : Nat := n % 4294967296

/-- Right-rotation of a 32-bit word by n bits. -/
def rotr (n x : Nat) : Nat := x / 2 ^ n + x % 2 ^ n * 2 ^ (32 - n)

/-- The big sigma-0 word function. -/
def bSig0 (x : Nat) : Nat := rotr 2 x ^^^ rotr 13 x ^^^ rotr 22 x

/-- The big sigma-1 word function. -/
def bSig1 (x : Nat) : Nat := rotr 6 x ^^^ rotr 11 x ^^^ rotr 25 x

/-- The small sigma-0 word function. -/
def sSig0 (x : Nat) : Nat := rotr 7 x ^^^ rotr 18 x ^^^ x / 2 ^ 3

/-- The small sigma-1 word function. -/
def sSig1 (x : Nat) : Nat := rotr 17 x ^^^ rotr 19 x ^^^ x / 2 ^ 10

/-- The choose word function (the complement is xor with the all-ones
32-bit word, valid for words below 2 ^ 32). -/
def chF (x y z : Nat) : Nat := x &&& y ^^^ (x ^^^ 4294967295) &&& z

/-- The majority word function. -/
def majF (x y z : Nat) : Nat := x &&& y ^^^ x &&& z ^^^ y &&& z

/-- The eight working variables of the SHA-256 compression function. -/
structure Hash8 where
  a : Nat
  b : Nat
  c : Nat
  d : Nat
  e : Nat
  f : Nat
  g : Nat
  h : Nat

/-- The 64 SHA-256 round constants of FIPS 180-4, written in decimal. -/
def shaK : List Nat :=
  [1116352408, 1899447441, 3049323471, 3921009573, 961987163,
   1508970993, 2453635748, 2870763221, 3624381080, 310598401,
   607225278, 1426881987, 1925078388, 2162078206, 2614888103,
   3248222580, 3835390401, 4022224774, 264347078, 604807628,
   770255983, 1249150122, 1555081692, 1996064986, 2554220882,
   2821834349, 2952996808, 3210313671, 3336571891, 3584528711,
   113926993, 338241895, 666307205, 773529912, 1294757372,
   1396182291, 1695183700, 1986661051, 2177026350, 2456956037,
   2730485921, 2820302411, 3259730800, 3345764771, 3516065817,
   3600352804, 4094571909, 275423344, 430227734, 506948616,
   659060556, 883997877, 958139571, 1322822218, 1537002063,
   1747873779, 1955562222, 2024104815, 2227730452, 2361852424,
   2428436474, 2756734187, 3204031479, 3329325298]

/-- The SHA-256 initial hash value of FIPS 180-4, written in decimal. -/
def shaH0 : Hash8 :=
  ⟨1779033703, 3144134277, 1013904242, 2773480762,
   1359893119, 2600822924, 528734635, 1541459225⟩

/-- One SHA-256 round, consuming one fused constant-plus-schedule word. -/
def shaRound (kw : Nat) (H : Hash8) : Hash8 :=
  let t1 := H.h + bSig1 H.e + chF H.e H.f H.g + kw
  let t2 := bSig0 H.a + majF H.a H.b H.c
  ⟨w32 (t1 + t2), H.a, H.b, H.c, w32 (H.d + t1), H.e, H.f, H.g⟩

/-- The 64 rounds, folded over the fused constant-plus-schedule words. -/
def shaRounds : List Nat → Hash8 → Hash8
  | [], H => H
  | kw :: rest, H => shaRounds rest (shaRound kw H)

/-- Extend the 16-word block to the 64-word message schedule, one word at a
time. -/
def extendW : List Nat → Nat → List Nat
  | w, 0 => w
  | w, k + 1 =>
    let n := w.length
    let nw := w32 (sSig1 (w.getD (n - 2) 0) + w.getD (n - 7) 0 +
      sSig0 (w.getD (n - 15) 0) + w.getD (n - 16) 0)
    extendW (w ++ [nw]) k

/-- The SHA-256 compression function on one 16-word block. -/
def compress (H : Hash8) (block : List Nat) : Hash8 :=
  let W := extendW block 48
  let R := shaRounds (List.zipWith (fun k w => k + w) shaK W) H
  ⟨w32 (H.a + R.a), w32 (H.b + R.b), w32 (H.c + R.c), w32 (H.d + R.d),
   w32 (H.e + R.e), w32 (H.f + R.f), w32 (H.g + R.g), w32 (H.h + R.h)⟩

/-- Big-endian bytes to 32-bit words, four at a time. -/
def bytesToWords : List Nat → List Nat
  | b0 :: b1 :: b2 :: b3 :: rest =>
    (b0 * 16777216 + b1 * 65536 + b2 * 256 + b3) :: bytesToWords rest
  | _ => []

/-- Words to 16-word blocks. -/
def wordsToBlocks : List Nat → List (List Nat)
  | w0 :: w1 :: w2 :: w3 :: w4 :: w5 :: w6 :: w7 ::
    w8 :: w9 :: w10 :: w11 :: w12 :: w13 :: w14 :: w15 :: rest =>
    [w0, w1, w2, w3, w4, w5, w6, w7, w8, w9, w10, w11, w12, w13, w14, w15] ::
      wordsToBlocks rest
  | _ => []

/-- A 64-bit length in eight big-endian bytes. -/
def be64 (n : Nat) : List Nat :=
  [n / 2 ^ 56 % 256, n / 2 ^ 48 % 256, n / 2 ^ 40 % 256, n / 2 ^ 32 % 256,
   n / 2 ^ 24 % 256, n / 2 ^ 16 % 256, n / 2 ^ 8 % 256, n % 256]

/-- SHA-256 padding: the 0x80 byte, zeros to 56 modulo 64, and the bit
length in eight big-endian bytes. -/
def sha256Pad (m : List Nat) : List Nat :=
  m ++ 128 :: List.replicate ((64 - (m.length + 9) % 64) % 64) 0 ++ be64 (8 * m.length)

/-- SHA-256 of a byte list, as the eight final hash words. -/
def sha256 (m : List Nat) : Hash8 :=
  (wordsToBlocks (bytesToWords (sha256Pad m))).foldl compress shaH0

/-- A lowercase hex digit. -/
def hexDigit (n : Nat) : Char :=
  if n < 10 then Char.ofNat (48 + n) else Char.ofNat (87 + n)

/-- The eight lowercase hex digits of a 32-bit word. -/
def wordHex (w : Nat) : Str :=
  [hexDigit (w / 16 ^ 7 % 16), hexDigit (w / 16 ^ 6 % 16),
   hexDigit (w / 16 ^ 5 % 16), hexDigit (w / 16 ^ 4 % 16),
   hexDigit (w / 16 ^ 3 % 16), hexDigit (w / 16 ^ 2 % 16),
   hexDigit (w / 16 % 16), hexDigit (w % 16)]

/-- The 64-character lowercase hex digest (hashlib hexdigest). -/
def hexdigest (H : Hash8) : Str :=
  wordHex H.a ++ wordHex H.b ++ wordHex H.c ++ wordHex H.d ++
    wordHex H.e ++ wordHex H.f ++ wordHex H.g ++ wordHex H.h

/-- UTF-8 bytes of one character (str.encode("utf-8"), per character). -/
def utf8Char (c : Char) : List Nat :=
  let n := c.toNat
  if n < 128 then [n]
  else if n < 2048 then [192 + n / 64, 128 + n % 64]
  else if n < 65536 then [224 + n / 4096, 128 + n / 64 % 64, 128 + n % 64]
  else [240 + n / 262144, 128 + n / 4096 % 64, 128 + n / 64 % 64, 128 + n % 64]

/-- UTF-8 bytes of a string (str.encode("utf-8")). -/
def utf8 (s : Str) : List Nat := (s.map utf8Char).flatten

/-- hashlib.sha256(s.encode("utf-8")).hexdigest(). -/
def sha256_hexdigest (s : Str) : Str := hexdigest (sha256 (utf8 s))

theorem sha256_test_vector_abc : sha256_hexdigest (str "abc") =
    str "ba7816bf8f01cfea414140de5dae2223b00361a396177a9cb410ff61f20015ad" := by
  decide

theorem sha256_test_vector_empty : sha256_hexdigest (str "") =
    str "e3b0c44298fc1c149afbf4c8996fb92427ae41e4649b934ca495991b7852b855" := by
  decide

/-! ### The token generator (Renderer._daily_token in scripts/renderer.py and
scripts/feed.py)

If the configured salt is empty the token is sixteen secrets.choice draws
from string.ascii_lowercase + string.digits; the draws are modelled by an
oracle giving the index of each draw. Otherwise the token is the first 16
hex characters of the SHA-256 of "<date.today().isoformat()>::<salt>"
encoded as UTF-8 — date.today() is the LOCAL calendar date of the host, an
explicit localToday argument here. -/

/-- Python string.ascii_lowercase + string.digits. -/
def tokenAlphabet : Str := str "abcdefghijklmnopqrstuvwxyz0123456789"

/-- Sixteen secrets.choice(alphabet) draws; the oracle gives the index of
each draw (reduced into range, as any drawing procedure is). -/
def random_token (o : Nat → Nat) : Str :=
  (List.range 16).map (fun i => tokenAlphabet.getD (o i % 36) 'a')

/-- Renderer._daily_token: random when the salt is empty, otherwise the
first 16 hex characters of SHA-256 over the UTF-8 bytes of
"<local-date-ISO>::<salt>". -/
def daily_token (o : Nat → Nat) (localToday salt : Str) : Str :=
  if salt = [] then random_token o
  else (sha256_hexdigest (localToday ++ str "::" ++ salt)).take 16

/-! ### Configuration (Config in scripts/config_loader.py and scripts/feed.py)

Only the fields the verified components read. Config.load sets
templates_dir to project_root / "templates"; manifest_path and the booleans
come from settings and the environment. -/

/-- The configuration bundle fields used by the verified components. -/
structure Config where
  project_root : Fpath
  templates_dir : Fpath
  manifest_path : Fpath
  output_html : Fpath
  page_title : Str
  page_noindex : Bool
  company_order : List Str
  max_results : Nat
  json_randomize : Bool
  json_daily_stable : Bool
  json_salt : Str

/-- The token used by compute_json_path. The source line is
token = self._daily_token() if self.cfg.json_daily_stable else
self._daily_token() — both branches of the conditional expression are the
same call, embedded as written. -/
def token_for_path (o : Nat → Nat) (localToday : Str) (cfg : Config) : Str :=
  if cfg.json_daily_stable then daily_token o localToday cfg.json_salt
  else daily_token o localToday cfg.json_salt

/-- Renderer.compute_json_path: data/latest.json when randomization is off,
otherwise data/<token>/<token>.json. The mkdir of the parent directory has
no effect on file contents and is not modelled. -/
def compute_json_path (o : Nat → Nat) (localToday : Str) (cfg : Config) : Fpath :=
  if !cfg.json_randomize then cfg.project_root ++ [str "data", str "latest.json"]
  else
    let token := token_for_path o localToday cfg
    cfg.project_root ++ [str "data", token, token ++ str ".json"]

/-! ### The manifest publisher (Renderer.write_json_and_manifest) -/

/-- Model of json_abs.relative_to(root).as_posix() for a path under the
root: drop the root components and join the rest with forward slashes. -/
def rel_posix (root p : Fpath) : Str := joinSlash (p.drop root.length)

/-- A fetched item (the dict literal built in Fetcher.fetch). -/
structure FeedItem where
  title : Str
  url : Str
  snippet : Str
  company : Str
  first_seen : Str
deriving DecidableEq

/-- The JSON document of one item. -/
def itemJson (it : FeedItem) : Json :=
  .obj [(str "title", .s it.title), (str "url", .s it.url),
    (str "snippet", .s it.snippet), (str "company", .s it.company),
    (str "first_seen", .s it.first_seen)]

/-- The feed document payload written at the computed JSON path. -/
def feed_payload (t : Utc) (items : List FeedItem) : Json :=
  .obj [(str "updated_at", .s (now_iso_utc t)),
    (str "count", .i items.length),
    (str "items", .arr (items.map itemJson))]

/-- The manifest record payload written at the fixed manifest path. -/
def manifest_payload (t : Utc) (cfg : Config) (jsonAbs : Fpath)
    (items : List FeedItem) : Json :=
  .obj [(str "updated_at", .s (now_iso_utc t)),
    (str "json_path", .s (rel_posix cfg.project_root jsonAbs)),
    (str "count", .i items.length)]

/-- Renderer.write_json_and_manifest: compute the feed path, atomically
write the feed document there, then atomically write the manifest record at
the fixed manifest path; returns the feed path and the final filesystem.
The two now_iso_utc() calls are the two clock readings t1 and t2. -/
def write_json_and_manifest (o : Nat → Nat) (localToday : Str) (t1 t2 : Utc)
    (cfg : Config) (fs : Fs) (items : List FeedItem) : Fpath × Fs :=
  let jsonAbs := compute_json_path o localToday cfg
  let fs1 := write_json_atomic fs jsonAbs (feed_payload t1 items)
  let fs2 := write_json_atomic fs1 cfg.manifest_path
    (manifest_payload t2 cfg jsonAbs items)
  (jsonAbs, fs2)

/-- Every filesystem state of the run of write_json_and_manifest, in order:
the initial state, the states of the feed write, then the states of the
manifest write. -/
def write_json_and_manifest_trace (o : Nat → Nat) (localToday : Str)
    (t1 t2 : Utc) (cfg : Config) (fs : Fs) (items : List FeedItem)
    (pf pm : List (Option FVal)) : List Fs :=
  let jsonAbs := compute_json_path o localToday cfg
  let fs1 := write_json_atomic fs jsonAbs (feed_payload t1 items)
  fs :: write_json_atomic_states fs jsonAbs (feed_payload t1 items) pf ++
    write_json_atomic_states fs1 cfg.manifest_path
      (manifest_payload t2 cfg jsonAbs items) pm

/-! ### The fetcher deduplication and fallback pass (Fetcher.fetch,
scripts/fetcher.py lines 101-126)

After the network loop, fetch deduplicates the collected items by url
keeping the first occurrence, truncates to max_results, and — when the
search call failed or the result is empty — tries to reload the previous
run from the manifest, catching every exception of that fallback and
returning the empty list instead. The network loop itself is external
input; the pass takes the collected items and the cse_failed flag as
arguments. -/

/-- The dedup loop of Fetcher.fetch: seen starts empty, each item with an
already seen url is dropped, others are kept and their url recorded. -/
def dedup_pass (seen : List Str) : List FeedItem → List FeedItem
  | [] => []
  | it :: rest =>
    if it.url ∈ seen then dedup_pass seen rest
    else it :: dedup_pass (it.url :: seen) rest

/-- The dedup-and-truncate result of Fetcher.fetch (dedup[:max_results]). -/
def fetch_dedup (maxResults : Nat) (items : List FeedItem) : List FeedItem :=
  (dedup_pass [] items).take maxResults

/-- Specification-style recursion for first-occurrence deduplication: keep
the head, drop every later item with the same url, recurse. Used to state
that dedup_pass keeps exactly the first occurrence of each url in input
order. -/
def dedupSpec : List FeedItem → List FeedItem
  | [] => []
  | x :: xs => x :: dedupSpec (xs.filter (fun it => !(it.url == x.url)))
termination_by l => l.length
decreasing_by
  simp only [List.length_cons]
  exact Nat.lt_succ_of_le (List.length_filter_le _ _)

/-- The manifest fallback block of Fetcher.fetch (the try body): load the
manifest, follow its json_path if truthy, load the feed document, return
its items entry (defaulting to the empty list). An ok none marks the
fall-through where json_path is absent or falsy; an error marks an
exception the enclosing except catches. -/
def fallback_load (fs : Fs) (cfg : Config) : Except String (Option Json) :=
  match fs cfg.manifest_path with
  | some (.j manifest) =>
    match manifest with
    | .obj kvs =>
      match lookupKV kvs (str "json_path") with
      | none => .ok none
      | some jp =>
        if jsonTruthy jp then
          match jp with
          | .s jpStr =>
            match fs (cfg.project_root ++ splitSlash jpStr) with
            | some (.j payload) =>
              match payload with
              | .obj pk =>
                match (lookupKV pk (str "items")).getD (Json.arr []) with
                | .s cs => .ok (some (.s cs))
                | .arr l => .ok (some (.arr l))
                | .obj kv => .ok (some (.obj kv))
                | _ => .error "TypeError: len() in the log line on an unsized items value"
              | _ => .error "AttributeError: payload.get on a non-dict"
            | _ => .error "feed document missing or unparseable"
          | _ => .error "TypeError: joining a non-string json_path"
        else .ok none
    | _ => .error "AttributeError: manifest.get on a non-dict"
  | _ => .error "manifest missing or unparseable"

/-- The tail of Fetcher.fetch after the network loop: dedup and truncate;
when the search failed or nothing remained, run the fallback — returning
its items on success, falling through to the primary result when json_path
is absent or falsy, and returning the empty list when the fallback raises
(the except branch). The returned value is the JSON of what the Python
function returns. -/
def fetch_finish (fs : Fs) (cfg : Config) (cse_failed : Bool)
    (items : List FeedItem) : Json :=
  let result := fetch_dedup cfg.max_results items
  if cse_failed || result.isEmpty then
    match fallback_load fs cfg with
    | .ok (some payloadItems) => payloadItems
    | .ok none => Json.arr (result.map itemJson)
    | .error _ => Json.arr []
  else Json.arr (result.map itemJson)

/-! ### The HTML renderer (Renderer._build_html in scripts/renderer.py)

String helpers model the Python str methods used: replace (all
non-overlapping occurrences, left to right), in (substring containment),
lower, strip, splitlines (modelled on the newline character). html.escape
with quote=True replaces the five special characters. -/

/-- html.escape of one character (quote=True). -/
def escapeChar (c : Char) : Str :=
  if c = '&' then str "&amp;"
  else if c = '<' then str "&lt;"
  else if c = '>' then str "&gt;"
  else if c = '"' then str "&quot;"
  else if c = '\'' then str "&#x27;"
  else [c]

/-- html.escape with quote=True. -/
def html_escape (s : Str) : Str := (s.map escapeChar).flatten

/-- One fuelled pass of str.replace (the fuel bounds the scan; the callers
pass the length of the string, enough for every non-empty pattern). -/
def replaceGo (p r : Str) : Nat → Str → Str
  | 0, s => s
  | _ + 1, [] => []
  | fuel + 1, c :: cs =>
    if p.isPrefixOf (c :: cs) then r ++ replaceGo p r fuel ((c :: cs).drop p.length)
    else c :: replaceGo p r fuel cs

/-- Python s.replace(old, new): every non-overlapping occurrence, left to
right. -/
def str_replace (s old new : Str) : Str := replaceGo old new s.length s

/-- Python sub in s. -/
def str_contains (s sub : Str) : Bool := decide (sub <:+: s)

/-- Python str.lower. -/
def py_lower (s : Str) : Str := s.map Char.toLower

/-- Python whitespace (str.strip default set). -/
def pySpaceChar (c : Char) : Bool :=
  c = ' ' || c = '\t' || c = '\n' || c = '\r' || c = '\x0b' || c = '\x0c'

/-- Python str.strip(). -/
def py_strip (s : Str) : Str :=
  ((s.dropWhile pySpaceChar).reverse.dropWhile pySpaceChar).reverse

/-- Split at every newline (helper for splitlines). -/
def splitNl : Str → List Str
  | [] => [[]]
  | c :: cs =>
    if c = '\n' then [] :: splitNl cs
    else
      match splitNl cs with
      | [] => [[c]]
      | g :: gs => (c :: g) :: gs

/-- Python str.splitlines(), modelled on the newline character: no entry
for a trailing newline, no entries at all for the empty string. -/
def splitlines (s : Str) : List Str :=
  match s with
  | [] => []
  | _ =>
    let ps := splitNl s
    if ps.getLastD [] = [] then ps.dropLast else ps

/-- Python str(int). -/
def int_str (n : Int) : Str :=
  if n < 0 then '-' :: Nat.toDigits 10 n.natAbs else Nat.toDigits 10 n.natAbs

/-- Python sep.join(parts). -/
def joinWith (sep : Str) : List Str → Str
  | [] => []
  | [s] => s
  | s :: rest => s ++ sep ++ joinWith sep rest

/-- The dom_id helper of _render_tabs_and_cards: "tab-" plus the name with
every character outside letters, digits, underscore and hyphen replaced by
a hyphen (re.sub of the class complement). -/
def dom_id (name : Str) : Str :=
  str "tab-" ++ name.map (fun c =>
    if ('a' ≤ c && c ≤ 'z') || ('A' ≤ c && c ≤ 'Z') || ('0' ≤ c && c ≤ '9') ||
        c = '_' || c = '-' then c else '-')

/-- Increment the count of a company in the insertion-ordered dict, or
append it with count one. -/
def bump_count : List (Str × Int) → Str → List (Str × Int)
  | [], c => [(c, 1)]
  | (k, v) :: rest, c =>
    if k = c then (k, v + 1) :: rest else (k, v) :: bump_count rest c

/-- Stable insertion into a descending-by-count list: a new element goes
after every strictly larger count and before equal ones it precedes in the
original order (the stability of Python sorted with reverse=True). -/
def insert_desc (x : Str × Int) : List (Str × Int) → List (Str × Int)
  | [] => [x]
  | y :: ys => if y.2 > x.2 then y :: insert_desc x ys else x :: y :: ys

/-- Python sorted(counts.items(), key=count, reverse=True), a stable
descending sort. -/
def sort_desc (l : List (Str × Int)) : List (Str × Int) := l.foldr insert_desc []

/-- Renderer._company_counts: count items per company (every item carries
its company field), descending by count. -/
def company_counts (items : List FeedItem) : List (Str × Int) :=
  sort_desc (items.foldl (fun acc it => bump_count acc it.company) [])

/-- Renderer._render_stats_list. -/
def render_stats_list (items : List FeedItem) : Str :=
  let counts := company_counts items
  if counts.isEmpty then []
  else
    joinWith (str "\n")
      ([str "<section class='trend-stats'>",
        str "<h2>🔥 Trend Stats (by company)</h2>",
        str "<ul class='stats-list'>"] ++
        counts.map (fun kv =>
          str "<li><strong>" ++ html_escape kv.1 ++ str "</strong>: " ++
            int_str kv.2 ++ str " posts</li>") ++
        [str "</ul></section>"])

/-- Renderer._load_summary_json: the empty dict when the file is missing;
a parse failure (raw text at the path) is the exception the caller does not
catch, modelled as none. -/
def read_summary_json (fs : Fs) (cfg : Config) : Option Json :=
  match fs (cfg.project_root ++ [str "data", str "summary.json"]) with
  | none => some (Json.obj [])
  | some (.j v) => some v
  | some (.t _) => none

/-- Python int(v) on a JSON value: integers and booleans convert; the other
cases (int of a numeric string is not used by the pipeline) are modelled as
the conversion failure the caller does not catch. -/
def jsonToInt : Json → Option Int
  | .i n => some n
  | .b true => some 1
  | .b false => some 0
  | _ => none

/-- Python max over the counts values (zero for the empty list, which the
caller has already excluded). -/
def maxSnd : List (Str × Int) → Int
  | [] => 0
  | kv :: rest => rest.foldl (fun m x => max m x.2) kv.2

/-- Python counts.get(c, 0). -/
def countGet : List (Str × Int) → Str → Int
  | [], _ => 0
  | (k, v) :: rest, c => if k = c then v else countGet rest c

/-- int(round((v / maxv) * 100)): integer half-up rounding models the float
rounding (the difference of round-half-even on exact halves plays no role
in the verified statements). -/
def pct_of (v maxv : Int) : Int :=
  if maxv > 0 then (200 * v + maxv) / (2 * maxv) else 0

/-- One stat card of _render_stats_cards (the f-string, stripped). -/
def stat_card (c : Str) (v pct : Int) : Str :=
  str "<div class='stat-card'>\n  <div class='stat-head'>\n    <span class='stat-title'>" ++
    html_escape c ++
    str "</span>\n    <span class='stat-value'>" ++ int_str v ++
    str "</span>\n  </div>\n  <div class='stat-bar'><div class='stat-bar-fill' style='width:" ++
    int_str pct ++ str "%;'></div></div>\n</div>"

/-- Renderer._render_stats_cards: the summary.json company_counts when it
is a non-empty dict of convertible counts, the per-item stats list
otherwise; none marks an uncaught exception (summary.json unparseable or a
count int() cannot convert). -/
def render_stats_cards (fs : Fs) (cfg : Config) (items : List FeedItem) :
    Option Str :=
  match read_summary_json fs cfg with
  | none => none
  | some data =>
    match objGet data (str "company_counts") with
    | some (Json.obj kvs) =>
      if kvs.isEmpty then some (render_stats_list items)
      else
        match kvs.mapM (fun kv => (jsonToInt kv.2).map (fun n => (kv.1, n))) with
        | none => none
        | some counts =>
          if counts.isEmpty then some []
          else
            let maxv := maxSnd counts
            let keys := counts.map Prod.fst
            let ordered := cfg.company_order.filter (fun c => keys.contains c)
            let taild := keys.filter (fun k => !(ordered.contains k))
            let cards := (ordered ++ taild).filterMap (fun c =>
              let v := countGet counts c
              if v ≤ 0 then none
              else some (stat_card c v (pct_of v maxv)))
            some (joinWith (str "\n")
              ([str "<section class='trend-cards'>",
                str "<h2>🔥 Trend Stats</h2>",
                str "<div class='cards'>"] ++ cards ++ [str "</div></section>"]))
    | _ => some (render_stats_list items)

/-- Append an item to its company group, keeping first-insertion order of
groups (dict setdefault plus append). -/
def appendGroup : List (Str × List FeedItem) → Str → FeedItem →
    List (Str × List FeedItem)
  | [], c, it => [(c, [it])]
  | (k, l) :: rest, c, it =>
    if k = c then (k, l ++ [it]) :: rest else (k, l) :: appendGroup rest c it

/-- The groups dict of _render_tabs_and_cards. -/
def group_by_company (items : List FeedItem) : List (Str × List FeedItem) :=
  items.foldl (fun acc it => appendGroup acc it.company it) []

/-- The group of a company (the empty list when absent). -/
def groupGet : List (Str × List FeedItem) → Str → List FeedItem
  | [], _ => []
  | (k, l) :: rest, c => if k = c then l else groupGet rest c

/-- One tab button of _render_tabs_and_cards. -/
def tab_button (c : Str) : Str :=
  str "<button class='tablink' role='tab' aria-controls='" ++ dom_id c ++
    str "' onclick=\"openCompany(event,'" ++ dom_id c ++ str "')\">" ++
    html_escape c ++ str "</button>"

/-- One item card of _render_tabs_and_cards. -/
def card_html (it : FeedItem) : Str :=
  str "<div class='card'><div class='item-title'><a href='" ++
    html_escape it.url ++ str "' target='_blank' rel='noopener'>" ++
    html_escape it.title ++ str "</a></div><div class='snippet'>" ++
    html_escape it.snippet ++ str "</div></div>"

/-- Renderer._render_tabs_and_cards. -/
def render_tabs_and_cards (cfg : Config) (items : List FeedItem) : Str :=
  let groups := group_by_company items
  let available := cfg.company_order.filter
    (fun c => !(groupGet groups c).isEmpty)
  let tabs := joinWith (str "\n")
    ([str "<div class='tab' role='tablist' aria-label='Companies'>"] ++
      available.map tab_button ++ [str "</div>"])
  let panes := joinWith (str "\n") (available.flatMap (fun c =>
    [str "<div id='" ++ dom_id c ++
       str "' class='tabcontent' role='tabpanel' aria-labelledby='" ++
       dom_id c ++ str "-btn'>",
     str "<div class='grid'>"] ++
    (groupGet groups c).map card_html ++ [str "</div></div>"]))
  joinWith (str "\n") [tabs, panes]

/-- Renderer._render_sample_questions (limit 6). -/
def render_sample_questions (items : List FeedItem) : Str :=
  joinWith (str "\n")
    ([str "<section class='sample-questions'>",
      str "<h2>🔗 Sample Questions</h2>",
      str "<ul>"] ++
      (items.take 6).map (fun it =>
        str "<li><strong>" ++ html_escape it.company ++
          str "</strong>: <a href='" ++ html_escape (py_strip it.url) ++
          str "' target='_blank' rel='noopener'>" ++
          html_escape (py_strip it.title) ++ str "</a></li>") ++
      [str "</ul></section>"])

/-- The line filter of _strip_sample_section: drop the "## sample
questions" section up to the next "## " heading. -/
def strip_sample_go : Bool → List Str → List Str
  | _, [] => []
  | skipping, line :: rest =>
    if !skipping &&
        (str "## sample questions").isPrefixOf (py_lower (py_strip line)) then
      strip_sample_go true rest
    else if skipping then
      if (str "## ").isPrefixOf (py_strip line) then
        line :: strip_sample_go false rest
      else strip_sample_go true rest
    else line :: strip_sample_go skipping rest

/-- Renderer._strip_sample_section. -/
def strip_sample_section (md : Str) : Str :=
  joinWith (str "\n") (strip_sample_go false (splitlines md))

/-- The template paths read by _build_html. -/
def head_path (cfg : Config) : Fpath := cfg.templates_dir ++ [str "head.html"]

/-- The tail template path. -/
def tail_path (cfg : Config) : Fpath := cfg.templates_dir ++ [str "tail.html"]

/-- The summary.md path. -/
def summary_md_path (cfg : Config) : Fpath := cfg.project_root ++ [str "summary.md"]

/-- The summary.json path (read by _render_stats_cards). -/
def summary_json_path (cfg : Config) : Fpath :=
  cfg.project_root ++ [str "data", str "summary.json"]

/-- read_text of a template file: none is the uncaught exception for a
missing file (a structured JSON value at a template path never occurs in
the verified statements and is also modelled as a failed read). -/
def read_text_file (fs : Fs) (p : Fpath) : Option Str :=
  match fs p with
  | some (.t s) => some s
  | _ => none

/-- The meta line _build_html splices before the closing head tag when
noindex is configured. -/
def noindex_meta : Str :=
  str "  <meta name=\"robots\" content=\"noindex,nofollow\">\n</head>"

/-- Renderer._build_html: head template with the title substituted and the
optional noindex meta, then the body parts (title, update time, stats,
tabs, sample questions, summary panel) joined by newlines with empty parts
dropped, then the tail template. The none result is an uncaught exception
(missing template, unparseable summary.json). The token and the computed
feed path are not among the inputs, matching the source signature. -/
def build_html (fs : Fs) (cfg : Config) (now : Utc) (items : List FeedItem)
    (summary_text : Option Str) : Option Str :=
  match read_text_file fs (head_path cfg) with
  | none => none
  | some head_tpl =>
    let head0 := str_replace head_tpl (str "{{PAGE_TITLE}}") (html_escape cfg.page_title)
    let head :=
      if cfg.page_noindex && !(str_contains head0 (str "name=\"robots\"")) then
        str_replace head0 (str "</head>") noindex_meta
      else head0
    match render_stats_cards fs cfg items with
    | none => none
    | some stats =>
      let md_fallback : Option Str :=
        match fs (summary_md_path cfg) with
        | some (FVal.t s) => some s
        | _ => none
      let md_text :=
        match summary_text with
        | some st => if (py_strip st).isEmpty then md_fallback else some st
        | none => md_fallback
      let summary_body :=
        match md_text with
        | some md =>
          str "<pre class='summary-md'>" ++
            html_escape (strip_sample_section md) ++ str "</pre>"
        | none => str "<em>No summary available.</em>"
      let parts :=
        [str "<h1>" ++ html_escape cfg.page_title ++ str "</h1>",
         str "<div class='time'>Updated at " ++ html_escape (now_iso_utc now) ++
           str "</div>",
         stats,
         render_tabs_and_cards cfg items,
         render_sample_questions items,
         str "<section class='summary-panel'>",
         str "<h2>📊 Daily Summary</h2>",
         str "<div class='summary-content'>",
         summary_body,
         str "</div></section>"]
      match read_text_file fs (tail_path cfg) with
      | none => none
      | some tail_tpl =>
        some (head ++ str "\n<body>\n" ++
          joinWith (str "\n") (parts.filter (fun p => !p.isEmpty)) ++
          str "\n" ++ tail_tpl)

/-! ### Token lemmas -/

/-- A lowercase letter or a digit (the token alphabet of the spec). -/
def isTokenChar (c : Char) : Prop := ('a' ≤ c ∧ c ≤ 'z') ∨ ('0' ≤ c ∧ c ≤ '9')

instance (c : Char) : Decidable (isTokenChar c) := by
  unfold isTokenChar
  infer_instance

theorem hexDigit_mem_hex : ∀ n, n < 16 → hexDigit n ∈ str "0123456789abcdef" := by
  decide

theorem wordHex_subset (w : Nat) :
    ∀ c ∈ wordHex w, c ∈ str "0123456789abcdef" := by
  intro c hc
  simp only [wordHex, List.mem_cons, List.not_mem_nil, or_false] at hc
  rcases hc with h | h | h | h | h | h | h | h <;>
    exact h ▸ hexDigit_mem_hex _ (Nat.mod_lt _ (by norm_num))

theorem hexdigest_subset (H : Hash8) :
    ∀ c ∈ hexdigest H, c ∈ str "0123456789abcdef" := by
  intro c hc
  simp only [hexdigest, List.mem_append] at hc
  rcases hc with ((((((h | h) | h) | h) | h) | h) | h) | h <;>
    exact wordHex_subset _ c h

theorem hexdigest_length (H : Hash8) : (hexdigest H).length = 64 := by
  simp [hexdigest, wordHex]

theorem hex_subset_alphabet :
    ∀ c ∈ str "0123456789abcdef", c ∈ tokenAlphabet := by decide

theorem random_token_length (o : Nat → Nat) : (random_token o).length = 16 := by
  simp [random_token]

theorem random_token_subset (o : Nat → Nat) :
    ∀ c ∈ random_token o, c ∈ tokenAlphabet := by
  intro c hc
  simp only [random_token, List.mem_map, List.mem_range] at hc
  obtain ⟨i, _, rfl⟩ := hc
  have h36 : o i % 36 < tokenAlphabet.length := Nat.mod_lt _ (by decide)
  rw [List.getD_eq_getElem _ _ h36]
  exact List.getElem_mem h36

theorem daily_token_length (o : Nat → Nat) (localToday salt : Str) :
    (daily_token o localToday salt).length = 16 := by
  unfold daily_token
  split
  · exact random_token_length o
  · simp [sha256_hexdigest, List.length_take, hexdigest_length]

theorem daily_token_subset (o : Nat → Nat) (localToday salt : Str) :
    ∀ c ∈ daily_token o localToday salt, c ∈ tokenAlphabet := by
  intro c hc
  unfold daily_token at hc
  split at hc
  · exact random_token_subset o c hc
  · exact hex_subset_alphabet c
      (hexdigest_subset _ c (List.mem_of_mem_take hc))

theorem alphabet_tokenChar : ∀ c ∈ tokenAlphabet, isTokenChar c := by decide

theorem token_for_path_eq (o : Nat → Nat) (localToday : Str) (cfg : Config) :
    token_for_path o localToday cfg = daily_token o localToday cfg.json_salt := by
  unfold token_for_path
  split <;> rfl

/-- C7: every token, in both the random and the salted-daily mode, is
exactly 16 characters long and each character is a lowercase letter or a
digit; the hex output of the salted mode stays within this alphabet. -/
theorem daily_token_shape (o : Nat → Nat) (localToday salt : Str) :
    (daily_token o localToday salt).length = 16 ∧
    ∀ c ∈ daily_token o localToday salt, isTokenChar c :=
  ⟨daily_token_length o localToday salt,
   fun c hc => alphabet_tokenChar c (daily_token_subset o localToday salt c hc)⟩

/-- C5: the resolved feed path is project_root/data/latest.json when
randomization is off, and project_root/data/token/token.json when it is on,
with the one token of the run in both the directory and the file name. -/
theorem compute_json_path_shape (o : Nat → Nat) (localToday : Str) (cfg : Config) :
    compute_json_path o localToday cfg =
      if cfg.json_randomize then
        cfg.project_root ++ [str "data", token_for_path o localToday cfg,
          token_for_path o localToday cfg ++ str ".json"]
      else cfg.project_root ++ [str "data", str "latest.json"] := by
  unfold compute_json_path
  cases h : cfg.json_randomize <;> simp

/-- C2 (the code as it behaves): whenever the salt is non-empty, the token
generator takes the salted hash path regardless of json_daily_stable — the
conditional in compute_json_path calls _daily_token in both branches, and
_daily_token tests only the salt. With json_daily_stable false the token is
therefore the deterministic daily hash, not a fresh random draw: it is the
same for every randomness oracle, and differs from what the random path
would have produced for the oracle that always draws index 25 (sixteen z
characters, a letter outside the hex alphabet). -/
theorem token_stable_flag_ignored (localToday : Str) (cfg : Config)
    (hsalt : cfg.json_salt ≠ []) (hstable : cfg.json_daily_stable = false) :
    (∀ o : Nat → Nat, token_for_path o localToday cfg
        = (sha256_hexdigest (localToday ++ str "::" ++ cfg.json_salt)).take 16) ∧
    token_for_path (fun _ => 25) localToday cfg ≠ random_token (fun _ => 25) := by
  have hhash : ∀ o : Nat → Nat, token_for_path o localToday cfg
      = (sha256_hexdigest (localToday ++ str "::" ++ cfg.json_salt)).take 16 := by
    intro o
    unfold token_for_path
    rw [hstable]
    simp only [Bool.false_eq_true, if_false]
    unfold daily_token
    rw [if_neg hsalt]
  refine ⟨hhash, ?_⟩
  intro heq
  rw [hhash] at heq
  have hz : 'z' ∈ random_token (fun _ => 25) := by decide
  rw [← heq] at hz
  have : 'z' ∈ str "0123456789abcdef" :=
    hexdigest_subset _ 'z' (List.mem_of_mem_take hz)
  simp [str] at this

theorem token_stable_flag_ignored_witness :
    token_for_path (fun _ => 25) (str "2024-01-15")
        { project_root := [str "r"], templates_dir := [str "r", str "templates"],
          manifest_path := [str "r", str "data", str "manifest.json"],
          output_html := [str "r", str "index.html"], page_title := str "t",
          page_noindex := true, company_order := [], max_results := 40,
          json_randomize := true, json_daily_stable := false,
          json_salt := str "abc123" }
      ≠ random_token (fun _ => 25) :=
  (token_stable_flag_ignored (str "2024-01-15") _ (by decide) rfl).2

/-- C3 (the code as it behaves): with a non-empty salt the token is the
first 16 hex characters of SHA-256 over the UTF-8 bytes of
"<date>::<salt>" where the date is date.today() — the LOCAL calendar date
of the host, not the UTC date — and the token is deterministic in that
local date and salt (independent of the randomness oracle). -/
theorem daily_token_salted_behavior (o : Nat → Nat) (localToday salt : Str)
    (hsalt : salt ≠ []) :
    daily_token o localToday salt
      = (sha256_hexdigest (localToday ++ str "::" ++ salt)).take 16 ∧
    ∀ o2 : Nat → Nat,
      daily_token o2 localToday salt = daily_token o localToday salt := by
  constructor
  · unfold daily_token
    rw [if_neg hsalt]
  · intro o2
    unfold daily_token
    rw [if_neg hsalt, if_neg hsalt]

theorem daily_token_salted_behavior_witness :
    daily_token (fun _ => 0) (str "2024-01-16") (str "abc123")
      = (sha256_hexdigest (str "2024-01-16::abc123")).take 16 ∧
    str "2024-01-16::abc123" ≠ str "2024-01-15::abc123" := by
  have h := (daily_token_salted_behavior (fun _ => 0) (str "2024-01-16")
    (str "abc123") (by decide)).1
  exact ⟨h.trans rfl, by decide⟩

/-- C4: write_json_atomic first writes the complete serialized document to
the co-located temporary file (target name plus ".tmp") and then atomically
renames it onto the target: at every observable state of the write the
content at the target path is either its previous content or the complete
new document, never a partial one; the final state holds the new document
at the target; the complete document sits at the temporary path before the
rename, and no pre-rename state changes the target. -/
theorem write_json_atomic_atomicity (fs : Fs) (p : Fpath) (v : Json)
    (partials : List (Option FVal)) (hp : p ≠ []) :
    (∀ s ∈ write_json_atomic_states fs p v partials,
        s p = fs p ∨ s p = some (FVal.j v)) ∧
    write_json_atomic fs p v p = some (FVal.j v) ∧
    fsSetTmp fs p (some (FVal.j v)) (tmpPath p) = some (FVal.j v) ∧
    (∀ w, fsSetTmp fs p w p = fs p) := by
  have htp : ¬(p = tmpPath p) := fun h => tmpPath_last_ne p hp h.symm
  have htarget : ∀ w, fsSetTmp fs p w p = fs p := by
    intro w
    simp [fsSetTmp, htp]
  refine ⟨?_, ?_, ?_, htarget⟩
  · intro s hs
    simp only [write_json_atomic_states, List.mem_append, List.mem_map,
      List.mem_singleton] at hs
    rcases hs with ⟨w, _, rfl⟩ | rfl
    · exact Or.inl (htarget w)
    · exact Or.inr (by simp [write_json_atomic])
  · simp [write_json_atomic]
  · simp [fsSetTmp]

theorem write_json_atomic_atomicity_witness :
    write_json_atomic (fun _ => none) [str "data", str "latest.json"]
        (Json.obj []) [str "data", str "latest.json"]
      = some (FVal.j (Json.obj [])) :=
  (write_json_atomic_atomicity (fun _ => none) [str "data", str "latest.json"]
    (Json.obj []) [] (by decide)).2.1

/-! ### Lemmas for the publish invariant -/

theorem token_for_path_subset (o : Nat → Nat) (localToday : Str) (cfg : Config) :
    ∀ c ∈ token_for_path o localToday cfg, c ∈ tokenAlphabet := by
  rw [token_for_path_eq]
  exact daily_token_subset o localToday cfg.json_salt

theorem slash_not_in_alphabet : '/' ∉ tokenAlphabet := by decide

theorem compute_json_path_ne_nil (o : Nat → Nat) (localToday : Str)
    (cfg : Config) : compute_json_path o localToday cfg ≠ [] := by
  rw [compute_json_path_shape]
  split <;> simp

theorem rel_posix_roundtrip (o : Nat → Nat) (localToday : Str) (cfg : Config) :
    cfg.project_root ++
        splitSlash (rel_posix cfg.project_root (compute_json_path o localToday cfg))
      = compute_json_path o localToday cfg := by
  have htok := token_for_path_subset o localToday cfg
  rw [compute_json_path_shape]
  by_cases hr : cfg.json_randomize
  · simp only [hr, if_true]
    rw [rel_posix, List.drop_left]
    rw [splitSlash_joinSlash _ (by simp)]
    intro s hs
    simp only [List.mem_cons, List.not_mem_nil, or_false] at hs
    rcases hs with rfl | rfl | rfl
    · decide
    · exact fun hmem => slash_not_in_alphabet (htok '/' hmem)
    · intro hmem
      rcases List.mem_append.mp hmem with h | h
      · exact slash_not_in_alphabet (htok '/' h)
      · revert h
        decide
  · rw [Bool.not_eq_true] at hr
    simp only [hr, Bool.false_eq_true, if_false]
    rw [rel_posix, List.drop_left]
    rw [splitSlash_joinSlash _ (by simp)]
    intro s hs
    simp only [List.mem_cons, List.not_mem_nil, or_false] at hs
    rcases hs with rfl | rfl <;> decide

/-- C1: after write_json_and_manifest, the manifest holds the new record;
its json_path, joined back to project_root, is exactly the feed path; the
feed document sits there complete, and the count fields of both documents
equal the number of items passed in. Moreover every state of the run has
either the untouched previous manifest or the complete new manifest
together with the complete feed document: the feed document is written
strictly before the manifest that references it, so no state pairs the new
manifest with a missing or partial feed file. The hypotheses say the
configured manifest path is distinct from the computed feed path and the
two temporary files, and non-empty — true of every real configuration
(data/manifest.json against data/latest.json or data/token/token.json). -/
theorem write_json_and_manifest_correct (o : Nat → Nat) (localToday : Str)
    (t1 t2 : Utc) (cfg : Config) (fs : Fs) (items : List FeedItem)
    (pf pm : List (Option FVal))
    (h1 : cfg.manifest_path ≠ compute_json_path o localToday cfg)
    (h2 : cfg.manifest_path ≠ tmpPath (compute_json_path o localToday cfg))
    (h3 : compute_json_path o localToday cfg ≠ tmpPath cfg.manifest_path)
    (hm : cfg.manifest_path ≠ []) :
    ((write_json_and_manifest o localToday t1 t2 cfg fs items).2 cfg.manifest_path
        = some (FVal.j (manifest_payload t2 cfg
            (compute_json_path o localToday cfg) items)) ∧
      cfg.project_root ++ splitSlash (rel_posix cfg.project_root
          (compute_json_path o localToday cfg))
        = compute_json_path o localToday cfg ∧
      (write_json_and_manifest o localToday t1 t2 cfg fs items).2
          (compute_json_path o localToday cfg)
        = some (FVal.j (feed_payload t1 items)) ∧
      objGet (manifest_payload t2 cfg (compute_json_path o localToday cfg) items)
          (str "count") = some (Json.i items.length) ∧
      objGet (feed_payload t1 items) (str "count")
        = some (Json.i items.length)) ∧
    ∀ s ∈ write_json_and_manifest_trace o localToday t1 t2 cfg fs items pf pm,
      s cfg.manifest_path = fs cfg.manifest_path ∨
        (s cfg.manifest_path = some (FVal.j (manifest_payload t2 cfg
            (compute_json_path o localToday cfg) items)) ∧
         s (compute_json_path o localToday cfg)
           = some (FVal.j (feed_payload t1 items))) := by
  have hman_tmp : ¬(cfg.manifest_path = tmpPath cfg.manifest_path) :=
    fun h => tmpPath_last_ne cfg.manifest_path hm h.symm
  have hfs1_p : write_json_atomic fs (compute_json_path o localToday cfg)
      (feed_payload t1 items) (compute_json_path o localToday cfg)
      = some (FVal.j (feed_payload t1 items)) := by
    simp [write_json_atomic]
  have hfs1_man : write_json_atomic fs (compute_json_path o localToday cfg)
      (feed_payload t1 items) cfg.manifest_path = fs cfg.manifest_path := by
    simp [write_json_atomic, h1, h2]
  have hfinal_man : (write_json_and_manifest o localToday t1 t2 cfg fs items).2
      cfg.manifest_path = some (FVal.j (manifest_payload t2 cfg
        (compute_json_path o localToday cfg) items)) := by
    simp [write_json_and_manifest, write_json_atomic]
  have hfinal_p : (write_json_and_manifest o localToday t1 t2 cfg fs items).2
      (compute_json_path o localToday cfg)
      = some (FVal.j (feed_payload t1 items)) := by
    show write_json_atomic _ cfg.manifest_path _ _ = _
    rw [write_json_atomic]
    rw [if_neg (fun h => h1 h.symm), if_neg h3]
    exact hfs1_p
  refine ⟨⟨hfinal_man, rel_posix_roundtrip o localToday cfg, hfinal_p, rfl, rfl⟩, ?_⟩
  intro s hs
  simp only [write_json_and_manifest_trace, write_json_atomic_states,
    List.mem_cons, List.mem_append, List.mem_map, List.mem_singleton,
    List.not_mem_nil, or_false] at hs
  rcases hs with (rfl | ⟨w, _, rfl⟩ | rfl) | (⟨w, _, rfl⟩ | rfl)
  · exact Or.inl rfl
  · exact Or.inl (by simp [fsSetTmp, h2])
  · exact Or.inl hfs1_man
  · refine Or.inl ?_
    show fsSetTmp _ cfg.manifest_path w cfg.manifest_path = _
    rw [fsSetTmp]
    rw [if_neg hman_tmp]
    exact hfs1_man
  · exact Or.inr ⟨hfinal_man, hfinal_p⟩

theorem write_json_and_manifest_correct_witness :
    (write_json_and_manifest (fun _ => 0) (str "2024-01-15")
        ⟨2024, 1, 15, 0, 0, 0⟩ ⟨2024, 1, 15, 0, 0, 1⟩
        { project_root := [str "r"], templates_dir := [str "r", str "templates"],
          manifest_path := [str "r", str "data", str "manifest.json"],
          output_html := [str "r", str "index.html"], page_title := str "t",
          page_noindex := true, company_order := [], max_results := 40,
          json_randomize := false, json_daily_stable := true,
          json_salt := [] }
        (fun _ => none) []).2 [str "r", str "data", str "manifest.json"]
      = some (FVal.j (manifest_payload ⟨2024, 1, 15, 0, 0, 1⟩
          { project_root := [str "r"], templates_dir := [str "r", str "templates"],
            manifest_path := [str "r", str "data", str "manifest.json"],
            output_html := [str "r", str "index.html"], page_title := str "t",
            page_noindex := true, company_order := [], max_results := 40,
            json_randomize := false, json_daily_stable := true,
            json_salt := [] }
          (compute_json_path (fun _ => 0) (str "2024-01-15")
            { project_root := [str "r"], templates_dir := [str "r", str "templates"],
              manifest_path := [str "r", str "data", str "manifest.json"],
              output_html := [str "r", str "index.html"], page_title := str "t",
              page_noindex := true, company_order := [], max_results := 40,
              json_randomize := false, json_daily_stable := true,
              json_salt := [] }) [])) :=
  (write_json_and_manifest_correct (fun _ => 0) (str "2024-01-15")
    ⟨2024, 1, 15, 0, 0, 0⟩ ⟨2024, 1, 15, 0, 0, 1⟩ _ (fun _ => none) [] [] []
    (by decide) (by decide) (by decide) (by decide)).1.1

/-- C6: the manifest record holds exactly the fields updated_at, json_path
and count, in that order; updated_at is the clock reading of the manifest
write formatted by now_iso_utc (ISO-8601, second precision, +00:00);
json_path is the feed path relative to project_root joined with forward
slashes (as_posix); count is the number of items; and for every initial
filesystem the publish ends with exactly this record at the manifest path —
the record does not depend on the prior filesystem at all, so nothing is
merged, kept or read from the prior manifest. -/
theorem manifest_publisher_record (o : Nat → Nat) (localToday : Str)
    (t1 t2 : Utc) (cfg : Config) (items : List FeedItem) :
    objKeys (manifest_payload t2 cfg (compute_json_path o localToday cfg) items)
      = [str "updated_at", str "json_path", str "count"] ∧
    objGet (manifest_payload t2 cfg (compute_json_path o localToday cfg) items)
        (str "updated_at") = some (Json.s (now_iso_utc t2)) ∧
    objGet (manifest_payload t2 cfg (compute_json_path o localToday cfg) items)
        (str "json_path")
      = some (Json.s (rel_posix cfg.project_root
          (compute_json_path o localToday cfg))) ∧
    objGet (manifest_payload t2 cfg (compute_json_path o localToday cfg) items)
        (str "count") = some (Json.i items.length) ∧
    ∀ fs : Fs, (write_json_and_manifest o localToday t1 t2 cfg fs items).2
        cfg.manifest_path
      = some (FVal.j (manifest_payload t2 cfg
          (compute_json_path o localToday cfg) items)) := by
  refine ⟨rfl, rfl, rfl, rfl, ?_⟩
  intro fs
  simp [write_json_and_manifest, write_json_atomic]

/-! ### Deduplication lemmas -/

theorem dedupSpec_nil : dedupSpec [] = [] := by
  rw [dedupSpec.eq_def]

theorem dedupSpec_cons (x : FeedItem) (xs : List FeedItem) :
    dedupSpec (x :: xs)
      = x :: dedupSpec (xs.filter (fun it => !(it.url == x.url))) := by
  rw [dedupSpec.eq_def]

theorem dedup_pass_filter (l : List FeedItem) : ∀ seen : List Str,
    dedup_pass seen l
      = dedupSpec (l.filter (fun it => decide (it.url ∉ seen))) := by
  induction l with
  | nil => intro seen; rw [List.filter_nil, dedupSpec_nil]; rfl
  | cons x xs ih =>
    intro seen
    by_cases hx : x.url ∈ seen
    · rw [show dedup_pass seen (x :: xs) = dedup_pass seen xs from by
        simp only [dedup_pass, if_pos hx]]
      rw [List.filter_cons_of_neg (by simpa using hx)]
      exact ih seen
    · rw [show dedup_pass seen (x :: xs) = x :: dedup_pass (x.url :: seen) xs from by
        simp only [dedup_pass, if_neg hx]]
      rw [List.filter_cons_of_pos (by simpa using hx)]
      rw [dedupSpec_cons]
      rw [ih (x.url :: seen)]
      congr 1
      rw [List.filter_filter]
      have hpred : (fun it : FeedItem => decide (it.url ∉ x.url :: seen))
          = fun a : FeedItem => (!(a.url == x.url) && decide (a.url ∉ seen)) := by
        funext it
        by_cases h1 : it.url = x.url <;> by_cases h2 : it.url ∈ seen <;>
          simp [h1, h2]
      rw [hpred]

theorem dedupSpec_sublist : ∀ l : List FeedItem, (dedupSpec l).Sublist l := by
  intro l
  induction l using dedupSpec.induct with
  | case1 => rw [dedupSpec_nil]
  | case2 x xs ih =>
    rw [dedupSpec_cons]
    exact (ih.trans (List.filter_sublist xs)).cons₂ x

theorem dedupSpec_nodup : ∀ l : List FeedItem,
    ((dedupSpec l).map (fun it => it.url)).Nodup := by
  intro l
  induction l using dedupSpec.induct with
  | case1 => rw [dedupSpec_nil]; exact List.nodup_nil
  | case2 x xs ih =>
    rw [dedupSpec_cons]
    simp only [List.map_cons, List.nodup_cons]
    refine ⟨?_, ih⟩
    intro hmem
    simp only [List.mem_map] at hmem
    obtain ⟨it, hit, hurl⟩ := hmem
    have hfil := (dedupSpec_sublist _).subset hit
    have hp := List.of_mem_filter hfil
    rw [hurl] at hp
    simp at hp

/-- C9: the dedup pass at the end of Fetcher.fetch keeps exactly the first
occurrence of each url in input order (it equals the first-occurrence
recursion dedupSpec truncated to max_results), its urls are pairwise
distinct, it is a sublist of the input (relative order preserved, every
kept item an input item), and its length is at most max_results. -/
theorem fetch_dedup_correct (maxResults : Nat) (items : List FeedItem) :
    fetch_dedup maxResults items = (dedupSpec items).take maxResults ∧
    ((fetch_dedup maxResults items).map (fun it => it.url)).Nodup ∧
    (fetch_dedup maxResults items).Sublist items ∧
    (fetch_dedup maxResults items).length ≤ maxResults := by
  have h0 : dedup_pass [] items = dedupSpec items := by
    rw [dedup_pass_filter]
    congr 1
    simp
  have heq : fetch_dedup maxResults items = (dedupSpec items).take maxResults := by
    rw [fetch_dedup, h0]
  refine ⟨heq, ?_, ?_, ?_⟩
  · rw [heq, List.map_take]
    exact (dedupSpec_nodup items).sublist (List.take_sublist _ _)
  · rw [heq]
    exact (List.take_sublist _ _).trans (dedupSpec_sublist items)
  · rw [heq]
    exact List.length_take_le _ _

/-- C10 (amended behavior): when the search failed or the deduplicated
result is empty, the fallback runs: if it loads items, fetch returns them;
if it raises (missing or unparseable manifest or feed document, a
non-string truthy json_path), the except branch returns the empty list —
fetch never propagates an exception from this path; but if the manifest
loads and its json_path is absent or falsy, fetch falls through and
returns the primary deduplicated result, which is non-empty when the
search failed after collecting items. Without the condition, fetch returns
the deduplicated, truncated primary result. -/
theorem fetch_fallback_behavior (fs : Fs) (cfg : Config) (cse_failed : Bool)
    (items : List FeedItem) :
    ((cse_failed || (fetch_dedup cfg.max_results items).isEmpty) = true →
      (∀ v, fallback_load fs cfg = Except.ok (some v) →
        fetch_finish fs cfg cse_failed items = v) ∧
      (fallback_load fs cfg = Except.ok none →
        fetch_finish fs cfg cse_failed items
          = Json.arr ((fetch_dedup cfg.max_results items).map itemJson)) ∧
      (∀ e, fallback_load fs cfg = Except.error e →
        fetch_finish fs cfg cse_failed items = Json.arr [])) ∧
    ((cse_failed || (fetch_dedup cfg.max_results items).isEmpty) = false →
      fetch_finish fs cfg cse_failed items
        = Json.arr ((fetch_dedup cfg.max_results items).map itemJson)) := by
  constructor
  · intro hcond
    refine ⟨?_, ?_, ?_⟩
    · intro v h
      simp [fetch_finish, hcond, h]
    · intro h
      simp [fetch_finish, hcond, h]
    · intro e h
      simp [fetch_finish, hcond, h]
  · intro hcond
    simp [fetch_finish, hcond]

/-- C10 as stated fails: with the search failed after collecting one item
and a manifest that loads but has no json_path, the fallback produces no
items (it fails to load anything), yet fetch returns the non-empty primary
result, not the empty list. -/
theorem fetch_fallback_counterexample :
    (true || (fetch_dedup 40
        [⟨str "t", str "u", str "s", str "c", str "f"⟩]).isEmpty) = true ∧
    fallback_load
        (fun q => if q = [str "m"] then some (FVal.j (Json.obj [])) else none)
        { project_root := [str "r"], templates_dir := [str "r", str "templates"],
          manifest_path := [str "m"],
          output_html := [str "r", str "index.html"], page_title := str "t",
          page_noindex := true, company_order := [], max_results := 40,
          json_randomize := true, json_daily_stable := true, json_salt := [] }
      = Except.ok none ∧
    fetch_finish
        (fun q => if q = [str "m"] then some (FVal.j (Json.obj [])) else none)
        { project_root := [str "r"], templates_dir := [str "r", str "templates"],
          manifest_path := [str "m"],
          output_html := [str "r", str "index.html"], page_title := str "t",
          page_noindex := true, company_order := [], max_results := 40,
          json_randomize := true, json_daily_stable := true, json_salt := [] }
        true [⟨str "t", str "u", str "s", str "c", str "f"⟩]
      ≠ Json.arr [] := by
  refine ⟨rfl, rfl, ?_⟩
  intro h
  have hval : fetch_finish
      (fun q => if q = [str "m"] then some (FVal.j (Json.obj [])) else none)
      { project_root := [str "r"], templates_dir := [str "r", str "templates"],
        manifest_path := [str "m"],
        output_html := [str "r", str "index.html"], page_title := str "t",
        page_noindex := true, company_order := [], max_results := 40,
        json_randomize := true, json_daily_stable := true, json_salt := [] }
      true [⟨str "t", str "u", str "s", str "c", str "f"⟩]
    = Json.arr [itemJson ⟨str "t", str "u", str "s", str "c", str "f"⟩] := rfl
  rw [hval] at h
  injection h with h2
  simp at h2

/-! ### Noninterference of the rendered page with the token -/

theorem build_html_agree (fs1 fs2 : Fs) (cfg : Config) (now : Utc)
    (items : List FeedItem) (st : Option Str)
    (hh : fs1 (head_path cfg) = fs2 (head_path cfg))
    (ht : fs1 (tail_path cfg) = fs2 (tail_path cfg))
    (hsj : fs1 (summary_json_path cfg) = fs2 (summary_json_path cfg))
    (hsm : fs1 (summary_md_path cfg) = fs2 (summary_md_path cfg)) :
    build_html fs1 cfg now items st = build_html fs2 cfg now items st := by
  have h1 : read_text_file fs1 (head_path cfg)
      = read_text_file fs2 (head_path cfg) := by
    rw [read_text_file, read_text_file, hh]
  have h2 : read_text_file fs1 (tail_path cfg)
      = read_text_file fs2 (tail_path cfg) := by
    rw [read_text_file, read_text_file, ht]
  have h3 : render_stats_cards fs1 cfg items = render_stats_cards fs2 cfg items := by
    unfold render_stats_cards read_summary_json
    rw [show cfg.project_root ++ [str "data", str "summary.json"]
      = summary_json_path cfg from rfl]
    rw [hsj]
  unfold build_html
  rw [h1, h2, h3, hsm]

theorem publish_preserves (o : Nat → Nat) (localToday : Str) (t1 t2 : Utc)
    (cfg : Config) (fs : Fs) (items : List FeedItem) (q : Fpath)
    (hq1 : q ≠ compute_json_path o localToday cfg)
    (hq2 : q ≠ tmpPath (compute_json_path o localToday cfg))
    (hq3 : q ≠ cfg.manifest_path)
    (hq4 : q ≠ tmpPath cfg.manifest_path) :
    (write_json_and_manifest o localToday t1 t2 cfg fs items).2 q = fs q := by
  show write_json_atomic (write_json_atomic fs _ _) cfg.manifest_path _ q = fs q
  rw [write_json_atomic]
  rw [if_neg hq3, if_neg hq4]
  rw [write_json_atomic]
  rw [if_neg hq1, if_neg hq2]

theorem tmpPath_concat (l : Fpath) (y : Str) :
    tmpPath (l ++ [y]) = l ++ [y ++ str ".tmp"] := by
  rw [tmpPath, List.dropLast_concat, List.getLastD_concat]

theorem tmpPath_root2 (root : Fpath) (a b : Str) :
    tmpPath (root ++ [a, b]) = root ++ [a, b ++ str ".tmp"] := by
  have h : root ++ [a, b] = (root ++ [a]) ++ [b] := by simp
  rw [h, tmpPath_concat]
  simp

theorem tmpPath_root3 (root : Fpath) (a b c : Str) :
    tmpPath (root ++ [a, b, c]) = root ++ [a, b, c ++ str ".tmp"] := by
  have h : root ++ [a, b, c] = (root ++ [a, b]) ++ [c] := by simp
  rw [h, tmpPath_concat]
  simp

theorem suffix_ne_13 (a c d e : Str) : ([a] : List Str) ≠ [c, d, e] := by
  intro h
  simpa using congrArg List.length h

theorem suffix_ne_23 (a b c d e : Str) : ([a, b] : List Str) ≠ [c, d, e] := by
  intro h
  simpa using congrArg List.length h

theorem root_append_ne (root : Fpath) {L1 L2 : List Str} (h : L1 ≠ L2) :
    root ++ L1 ≠ root ++ L2 := by
  intro he
  apply h
  have h1 := congrArg (List.drop root.length) he
  rwa [List.drop_left, List.drop_left] at h1

/-- The four paths _build_html reads are distinct from the four paths the
publish step writes, for the templates directory and manifest path of
Config.load (templates under the root, data/manifest.json). -/
theorem read_paths_ne_write_paths (o : Nat → Nat) (localToday : Str)
    (cfg : Config)
    (htd : cfg.templates_dir = cfg.project_root ++ [str "templates"])
    (hmp : cfg.manifest_path = cfg.project_root ++ [str "data", str "manifest.json"]) :
    ∀ q ∈ [head_path cfg, tail_path cfg, summary_json_path cfg,
        summary_md_path cfg],
      q ≠ compute_json_path o localToday cfg ∧
      q ≠ tmpPath (compute_json_path o localToday cfg) ∧
      q ≠ cfg.manifest_path ∧
      q ≠ tmpPath cfg.manifest_path := by
  intro q hq
  have hshape := compute_json_path_shape o localToday cfg
  have hman2 : cfg.manifest_path
      = cfg.project_root ++ [str "data", str "manifest.json"] := hmp
  have hmantmp : tmpPath cfg.manifest_path
      = cfg.project_root ++ [str "data", str "manifest.json" ++ str ".tmp"] := by
    rw [hmp, tmpPath_root2]
  simp only [head_path, tail_path, summary_json_path, summary_md_path, htd,
    List.mem_cons, List.not_mem_nil, or_false, List.append_assoc,
    List.cons_append, List.nil_append] at hq
  by_cases hr : cfg.json_randomize
  · simp only [hr, eq_self_iff_true, if_true] at hshape
    have htmp : tmpPath (compute_json_path o localToday cfg)
        = cfg.project_root ++ [str "data", token_for_path o localToday cfg,
            (token_for_path o localToday cfg ++ str ".json") ++ str ".tmp"] := by
      rw [hshape, tmpPath_root3]
    rcases hq with rfl | rfl | rfl | rfl <;>
      refine ⟨?_, ?_, ?_, ?_⟩ <;>
        first
          | (rw [hshape]; exact root_append_ne _ (suffix_ne_23 _ _ _ _ _))
          | (rw [htmp]; exact root_append_ne _ (suffix_ne_23 _ _ _ _ _))
          | (rw [hshape]; exact root_append_ne _ (suffix_ne_13 _ _ _ _))
          | (rw [htmp]; exact root_append_ne _ (suffix_ne_13 _ _ _ _))
          | (rw [hman2]; exact root_append_ne _ (by decide))
          | (rw [hmantmp]; exact root_append_ne _ (by decide))
  · rw [Bool.not_eq_true] at hr
    simp only [hr, Bool.false_eq_true, if_false] at hshape
    have htmp : tmpPath (compute_json_path o localToday cfg)
        = cfg.project_root ++ [str "data", str "latest.json" ++ str ".tmp"] := by
      rw [hshape, tmpPath_root2]
    rcases hq with rfl | rfl | rfl | rfl <;>
      refine ⟨?_, ?_, ?_, ?_⟩ <;>
        first
          | (rw [hshape]; exact root_append_ne _ (by decide))
          | (rw [htmp]; exact root_append_ne _ (by decide))
          | (rw [hman2]; exact root_append_ne _ (by decide))
          | (rw [hmantmp]; exact root_append_ne _ (by decide))

/-- C8: the rendered HTML does not depend on the generated token or the
resolved feed path. Two full runs that differ only in the randomness oracle
(hence only in the token and the rotated feed path they write) produce the
identical HTML string: the page reads only the templates, summary.json and
summary.md, never the token, the feed document or the manifest, so the
rotated path cannot be recovered from the page. The hypotheses fix the
template directory and manifest path to the shapes Config.load gives
them. -/
theorem build_html_token_noninterference (o1 o2 : Nat → Nat)
    (localToday : Str) (t1 t2 now : Utc) (cfg : Config) (fs : Fs)
    (items : List FeedItem) (st : Option Str)
    (htd : cfg.templates_dir = cfg.project_root ++ [str "templates"])
    (hmp : cfg.manifest_path = cfg.project_root ++ [str "data", str "manifest.json"]) :
    build_html ((write_json_and_manifest o1 localToday t1 t2 cfg fs items).2)
        cfg now items st
      = build_html ((write_json_and_manifest o2 localToday t1 t2 cfg fs items).2)
        cfg now items st := by
  have key : ∀ o : Nat → Nat, ∀ q ∈ [head_path cfg, tail_path cfg,
      summary_json_path cfg, summary_md_path cfg],
      (write_json_and_manifest o localToday t1 t2 cfg fs items).2 q = fs q := by
    intro o q hq
    obtain ⟨k1, k2, k3, k4⟩ := read_paths_ne_write_paths o localToday cfg htd hmp q hq
    exact publish_preserves o localToday t1 t2 cfg fs items q k1 k2 k3 k4
  apply build_html_agree <;>
    rw [key o1 _ (by simp), key o2 _ (by simp)]

theorem build_html_token_noninterference_witness :
    build_html ((write_json_and_manifest (fun _ => 0) (str "2024-01-15")
        ⟨2024, 1, 15, 0, 0, 0⟩ ⟨2024, 1, 15, 0, 0, 1⟩
        { project_root := [str "r"],
          templates_dir := [str "r", str "templates"],
          manifest_path := [str "r", str "data", str "manifest.json"],
          output_html := [str "r", str "index.html"], page_title := str "t",
          page_noindex := true, company_order := [], max_results := 40,
          json_randomize := true, json_daily_stable := true,
          json_salt := [] }
        (fun _ => none) []).2)
      { project_root := [str "r"],
        templates_dir := [str "r", str "templates"],
        manifest_path := [str "r", str "data", str "manifest.json"],
        output_html := [str "r", str "index.html"], page_title := str "t",
        page_noindex := true, company_order := [], max_results := 40,
        json_randomize := true, json_daily_stable := true,
        json_salt := [] }
      ⟨2024, 1, 15, 0, 0, 2⟩ [] none
    = build_html ((write_json_and_manifest (fun _ => 1) (str "2024-01-15")
        ⟨2024, 1, 15, 0, 0, 0⟩ ⟨2024, 1, 15, 0, 0, 1⟩
        { project_root := [str "r"],
          templates_dir := [str "r", str "templates"],
          manifest_path := [str "r", str "data", str "manifest.json"],
          output_html := [str "r", str "index.html"], page_title := str "t",
          page_noindex := true, company_order := [], max_results := 40,
          json_randomize := true, json_daily_stable := true,
          json_salt := [] }
        (fun _ => none) []).2)
      { project_root := [str "r"],
        templates_dir := [str "r", str "templates"],
        manifest_path := [str "r", str "data", str "manifest.json"],
        output_html := [str "r", str "index.html"], page_title := str "t",
        page_noindex := true, company_order := [], max_results := 40,
        json_randomize := true, json_daily_stable := true,
        json_salt := [] }
      ⟨2024, 1, 15, 0, 0, 2⟩ [] none :=
  build_html_token_noninterference (fun _ => 0) (fun _ => 1) (str "2024-01-15")
    ⟨2024, 1, 15, 0, 0, 0⟩ ⟨2024, 1, 15, 0, 0, 1⟩ ⟨2024, 1, 15, 0, 0, 2⟩ _
    (fun _ => none) [] none rfl rfl
